import Mathlib

/-!
Verification development for the downwardlab experiment-workspace scripts.

The Python sources (`scripts/lib/prompt_utils.py`, `scripts/lib/helpers.py`,
`scripts/new_experiment.py`, `scripts/delete_experiment.py`) are shallowly
embedded here:

* filesystem paths are modelled as lists of path segments (so
  `os.path.join(a, b)` is list append and `os.path.basename` is the last
  segment);
* the filesystem is a finite association list from paths to entries
  (directories, or files with byte contents);
* the interactive prompt's input stream is an explicit list of response
  strings; a run that consumes the whole stream without resolving is reported
  as `blockedOnInput` (the real program would keep blocking on the terminal);
* Python exceptions become an explicit error component of each result.
-/

/-! ### Confirmation prompt (`scripts/lib/prompt_utils.py`) -/

/-- Embeds `ConfirmationPrompt._ResponseHandling`: the two token collections
and the case-sensitivity flag.  Collections are kept as lists; the Python
`set([*affirmative, *negative])` is membership-equivalent to the concatenated
list used in `valid`. -/
structure ResponseHandling where
  affirmative : List String
  negative : List String
  case_sensitive : Bool
deriving DecidableEq

/-- Embeds `_ResponseHandling.valid`: the union of the two collections
(membership-wise; the source materialises a Python set). -/
def ResponseHandling.valid (rh : ResponseHandling) : List String :=
  rh.affirmative ++ rh.negative

/-- Python's `str.lower()` on the tokens this program compares (ASCII):
lower-case every character.  (Defined over the character list so that it
evaluates by kernel reduction.) -/
def py_lower (s : String) : String :=
  ⟨s.data.map Char.toLower⟩

/-- Embeds `_ResponseHandling.check_element`: lower-case both the element and
the collection unless `case_sensitive`, then test membership. -/
def ResponseHandling.check_element (rh : ResponseHandling) (elem : String)
    (collection : List String) : Bool :=
  let e := if rh.case_sensitive = false then py_lower elem else elem
  let C := if rh.case_sensitive = false then collection.map (fun c => py_lower c)
           else collection
  C.contains e

/-- Embeds `_ResponseHandling.is_valid`. -/
def ResponseHandling.is_valid (rh : ResponseHandling) (response : String) : Bool :=
  rh.check_element response rh.valid

/-- Embeds `_ResponseHandling.is_affirmative`. -/
def ResponseHandling.is_affirmative (rh : ResponseHandling) (response : String) : Bool :=
  rh.check_element response rh.affirmative

/-- Embeds `_ResponseHandling.is_negative`. -/
def ResponseHandling.is_negative (rh : ResponseHandling) (response : String) : Bool :=
  rh.check_element response rh.negative

/-- The comparison key actually used by `check_element`: the string itself in
case-sensitive mode, its lower-casing otherwise. -/
def caseNorm (case_sensitive : Bool) (s : String) : String :=
  if case_sensitive then s else py_lower s

/-- Python's `str.endswith(" ")` for the single-space suffix: the last
character is a space.  (`Char.ofNat 32` is the space character.) -/
def endswith_space (s : String) : Bool :=
  s.data.getLast? == some (Char.ofNat 32)

/-- Embeds the text normalisation in `Prompt.__init__`:
`text = text if text.endswith(' ') else text + ' '`. -/
def Prompt.initText (text : String) : String :=
  if endswith_space text then text else text ++ " "

/-- Embeds `ConfirmationPrompt` state: the normalised prompt text, the
attempt bound and the response handling.  `__init__` stores the collections
verbatim; it performs no disjointness or other validation. -/
structure ConfirmationPrompt where
  prompt : String
  max_attempts : Option Nat
  responses : ResponseHandling
deriving DecidableEq

/-- Embeds `ConfirmationPrompt.__init__` (style arguments, which never affect
control flow, are omitted). -/
def ConfirmationPrompt.init (prompt : String) (max_attempts : Option Nat)
    (affirmative negative : List String) (case_sensitive : Bool) : ConfirmationPrompt :=
  { prompt := Prompt.initText prompt
  , max_attempts := max_attempts
  , responses := ⟨affirmative, negative, case_sensitive⟩ }

/-- Outcome of one run of the gate loop. `pending` means the modelled input
stream ran out while the loop would still be blocking on the terminal. -/
inductive GateOutcome where
  | affirmed
  | declined
  | exhausted
  | pending
deriving DecidableEq

/-- A gate run: its outcome plus how many invalid-input warnings were
printed along the way. -/
structure GateTrace where
  outcome : GateOutcome
  warnings : Nat
deriving DecidableEq

/-- Embeds the guard of the `assert` in `ConfirmationPrompt.__call__`:
`self.max_attempts is None or attempt <= self.max_attempts`, evaluated after
the counter has been incremented. -/
def attempt_ok (max_attempts : Option Nat) (attempt : Nat) : Bool :=
  match max_attempts with
  | none => true
  | some m => decide (attempt ≤ m)

/-- Embeds the `while True` loop of `ConfirmationPrompt.__call__`, with the
user's successive input lines made explicit.  A valid response returns
immediately (`Affirmed` iff `is_affirmative`); an invalid response prints the
warning, increments `attempt`, and either loops or — when the incremented
counter exceeds `max_attempts` — raises (`exhausted`). -/
def ConfirmationPrompt.callLoop (rh : ResponseHandling) (max_attempts : Option Nat)
    (attempt : Nat) : List String → GateTrace
  | [] => ⟨.pending, 0⟩
  | response :: rest =>
    if rh.is_valid response then
      ⟨if rh.is_affirmative response then .affirmed else .declined, 0⟩
    else if attempt_ok max_attempts (attempt + 1) then
      let t := ConfirmationPrompt.callLoop rh max_attempts (attempt + 1) rest
      ⟨t.outcome, t.warnings + 1⟩
    else
      ⟨.exhausted, 1⟩

/-- Embeds `ConfirmationPrompt.__call__`: run the loop starting at
`attempt = 1`. -/
def ConfirmationPrompt.call (cp : ConfirmationPrompt) (stream : List String) : GateTrace :=
  ConfirmationPrompt.callLoop cp.responses cp.max_attempts 1 stream

/-! ### Filesystem model and workspace paths -/

/-- A filesystem entry: a directory, or a file with its byte contents. -/
inductive FsEntry where
  | dir
  | file (bytes : List Nat)
deriving DecidableEq

/-- A filesystem: a finite association of paths (segment lists) to entries. -/
structure Fs where
  entries : List (List String × FsEntry)
deriving DecidableEq

/-- `os.path.exists` over the model. -/
def Fs.pathPresent (fs : Fs) (p : List String) : Bool :=
  fs.entries.any (fun e => e.1 == p)

/-- `os.path.isdir` over the model. -/
def Fs.isDirAt (fs : Fs) (p : List String) : Bool :=
  fs.entries.any (fun e => e.1 == p && (match e.2 with | .dir => true | .file _ => false))

/-- The nonempty path segments prefixes of `p`, shortest first, ending with
`p` itself (the chain of directories `os.makedirs` walks). -/
def pathAncestors (p : List String) : List (List String) :=
  (List.range p.length).map (fun i => p.take (i + 1))

/-- The directory entries `os.makedirs p` adds: every ancestor of `p`
(including `p`) not already present. -/
def makedirsAdd (fs : Fs) (p : List String) : Fs :=
  ⟨fs.entries ++ ((pathAncestors p).filter (fun q => !(fs.pathPresent q))).map
      (fun q => (q, FsEntry.dir))⟩

/-- Python exceptions that reach the embedded code paths.  `blockedOnInput`
is the model artifact for an exhausted input stream (see header). -/
inductive PyError where
  | fileExists
  | fileNotFound
  | attemptsExhausted
  | blockedOnInput
deriving DecidableEq

/-- `os.makedirs(p)`: `FileExistsError` when `p` is already present,
otherwise create all missing ancestors of `p` as directories.  (A parent
occupied by a regular file — an OS-level `NotADirectoryError` — is outside
this model.) -/
def makedirs (fs : Fs) (p : List String) : Except PyError Fs :=
  if fs.pathPresent p then .error .fileExists else .ok (makedirsAdd fs p)

/-- `shutil.rmtree(p)`: drop `p` and everything below it.  Missing entries
are tolerated (nothing to drop), matching the `ignore_errors=True` call in
`delete_experiment._rmexpdir` and the always-present call site in
`mkexpdir`. -/
def rmtree (fs : Fs) (p : List String) : Fs :=
  ⟨fs.entries.filter (fun e => !(p.isPrefixOf e.1))⟩

/-- `os.path.basename` over segment lists: the last segment (empty for the
empty path). -/
def os_basename (p : List String) : String :=
  p.getLastD ""

/-- Embeds the path resolution in `mkexpdir` (`scripts/new_experiment.py`):
append an `experiments` segment unless the root is already called
`experiments`, then append the experiment name. -/
def mkexpdirPath (rootdir : List String) (experiment_name : String) : List String :=
  let rootdir := if os_basename rootdir != "experiments" then rootdir ++ ["experiments"]
                 else rootdir
  rootdir ++ [experiment_name]

/-- Embeds the path resolution in `delete_experiment`
(`scripts/delete_experiment.py`):
`ft.reduce(os.path.join, [DL_HOME, "experiments", experiment_name])` —
unconditionally `DL_HOME/experiments/name`. -/
def deleteExpdirPath (dl_home : List String) (experiment_name : String) : List String :=
  dl_home ++ ["experiments", experiment_name]

/-! ### Workspace creation (`scripts/new_experiment.py`) -/

/-- Embeds `confirm_overwrite`: run the confirmation gate with the overwrite
prompt, `max_attempts=3`, `affirmative=('yes',)`, `negative=('no',)` and the
default case-insensitive matching.  (The prompt punctuation of the source is
simplified; its content never affects control flow.) -/
def confirm_overwrite (stream : List String) : GateTrace :=
  ConfirmationPrompt.call
    (ConfirmationPrompt.init
      "Are you sure you want to continue with overwriting the existing data? (yes/no) "
      (some 3) ["yes"] ["no"] false)
    stream

/-- Result of one `mkexpdir` call: the filesystem afterwards, the returned
path (`none` embeds Python `None`, the declined-overwrite sentinel), the
exception that escaped (if any), and whether the confirmation prompt was
rendered. -/
structure MkexpdirResult where
  fs : Fs
  ret : Option (List String)
  error : Option PyError
  prompted : Bool
deriving DecidableEq

/-- Embeds `mkexpdir` with the caller-supplied root (`rootdir` is always
passed by `create_experiment_subdir`; the `downwardlab_home()` fallback for a
missing root is the external discovery collaborator and is not modelled).
`os.makedirs` is attempted; on `FileExistsError` the user is gated, and on
`Affirmed` the tree is removed and recreated, on `Declined` the `None`
sentinel is returned, while gate exhaustion propagates the assertion
error. -/
def mkexpdir (fs : Fs) (rootdir : List String) (experiment_name : String)
    (stream : List String) : MkexpdirResult :=
  let expdir := mkexpdirPath rootdir experiment_name
  match makedirs fs expdir with
  | .ok fs1 => ⟨fs1, some expdir, none, false⟩
  | .error .fileExists =>
    match (confirm_overwrite stream).outcome with
    | .affirmed =>
      match makedirs (rmtree fs expdir) expdir with
      | .ok fs2 => ⟨fs2, some expdir, none, true⟩
      | .error e => ⟨rmtree fs expdir, none, some e, true⟩
    | .declined => ⟨fs, none, none, true⟩
    | .exhausted => ⟨fs, none, some .attemptsExhausted, true⟩
    | .pending => ⟨fs, none, some .blockedOnInput, true⟩
  | .error e => ⟨fs, none, some e, false⟩

/-- Result of a whole `new_experiment.main` run: final filesystem, process
exit status, whether the virtualenv-creation step ran, whether the hook
files were generated, and whether a prompt was rendered. -/
structure MainResult where
  fs : Fs
  exitCode : Nat
  venvCreated : Bool
  hooksWritten : Bool
  prompted : Bool
deriving DecidableEq

/-- Embeds `new_experiment.main`: `create_experiment_subdir` is `mkexpdir`
wrapped by `add_abort_condition(lambda rval: rval is None)`
(`scripts/lib/helpers.py`), whose abort path is `sys.exit(1)`; an uncaught
exception likewise terminates the interpreter with a non-zero status (1).
Only when a path is returned do `create_exp_venv` and
`generate_virtualenvwrapper_hooks` run (modelled as flags; their content is
the external collaborator resp. the hook-text functions below). -/
def createExperimentMain (fs : Fs) (dl_home : List String) (experiment_name : String)
    (stream : List String) : MainResult :=
  let r := mkexpdir fs dl_home experiment_name stream
  match r.error with
  | some _ => ⟨r.fs, 1, false, false, r.prompted⟩
  | none =>
    match r.ret with
    | none => ⟨r.fs, 1, false, false, r.prompted⟩
    | some _ => ⟨r.fs, 0, true, true, r.prompted⟩

/-! ### Workspace deletion (`scripts/delete_experiment.py`) -/

/-- Result of a `delete_experiment` run. -/
structure DeleteResult where
  fs : Fs
  error : Option PyError
  prompted : Bool
  venvRemoved : Bool
deriving DecidableEq

/-- Embeds the confirmation gate of `delete_experiment` (same lexicon and
bound as `confirm_overwrite`; the prompt text differs only in wording). -/
def confirm_delete (stream : List String) : GateTrace :=
  ConfirmationPrompt.call
    (ConfirmationPrompt.init
      "Are you sure you want to delete all contents of the experiment directory and the virtualenv? (yes/no) "
      (some 3) ["yes"] ["no"] false)
    stream

/-- Embeds `delete_experiment`: resolve `DL_HOME/experiments/name`; raise
`FileNotFoundError` when it is not a directory; otherwise gate, and on
`Affirmed` remove the tree (`_rmexpdir`) and the virtualenv, on `Declined`
print and do nothing. -/
def delete_experiment (fs : Fs) (dl_home : List String) (experiment_name : String)
    (stream : List String) : DeleteResult :=
  let exp_dir := deleteExpdirPath dl_home experiment_name
  if fs.isDirAt exp_dir then
    match (confirm_delete stream).outcome with
    | .affirmed => ⟨rmtree fs exp_dir, none, true, true⟩
    | .declined => ⟨fs, none, true, false⟩
    | .exhausted => ⟨fs, some .attemptsExhausted, true, false⟩
    | .pending => ⟨fs, some .blockedOnInput, true, false⟩
  else
    ⟨fs, some .fileNotFound, false, false⟩

/-! ### Hook generation (`scripts/new_experiment.py`, hook file data) -/

/-- Embeds `preactivate_text` (the enter-begin hook body). -/
def preactivate_text : String :=
  String.intercalate "\n" [
    "export _BASEENV_PYTHONPATH=\"${PYTHONPATH}\"",
    "unset PYTHONPATH"
  ]

/-- Embeds the `commands` list of `postactivate_text` (the enter-committed
hook).  The last element reproduces the source exactly: the two `DOWNWARD_*`
export string literals are adjacent across a line continuation with no comma
between them, so Python's implicit string-literal concatenation fuses them
into a single list element (hence `++` here, with no separator). -/
def postactivate_commands (dlab_rootdir : String) : List String :=
  [ "export _BASEENV_PROJECT_HOME=${PROJECT_HOME}",
    "export PROJECT_HOME=" ++ dlab_rootdir,
    "\n",
    "export _BASEENV_PATH=${PATH}",
    "export PATH=${PROJECT_HOME}/VAL:${PATH}",
    "\n",
    "export DOWNWARD_BENCHMARKS=${PROJECT_HOME}/benchmarks"
      ++ "export DOWNWARD_REPO=${PROJECT_HOME}/fast-downward"
  ]

/-- Embeds `postactivate_text`: the `commands` joined by newlines. -/
def postactivate_text (dlab_rootdir : String) : String :=
  String.intercalate "\n" (postactivate_commands dlab_rootdir)

/-- Embeds `predeactivate_text` (the exit-begin hook body; in the source it
is one adjacent-literal string with explicit newlines). -/
def predeactivate_text : String :=
  "\nexport PROJECT_HOME=${_BASEENV_PROJECT_HOME}" ++
  "\nunset _BASEENV_PROJECT_HOME" ++
  "\n" ++
  "\nexport PATH=$_BASEENV_PATH" ++
  "\nunset _BASEENV_PATH" ++
  "\n" ++
  "\nunset DOWNWARD_BENCHMARKS" ++
  "\nunset DOWNWARD_REPO" ++
  "\n"

/-- Embeds `postdeactivate_text` (the exit-committed hook body). -/
def postdeactivate_text : String :=
  String.intercalate "\n" [
    "export PYTHONPATH=\"${_BASEENV_PYTHONPATH}\"",
    "unset _BASEENV_PYTHONPATH"
  ]

/-- Split a character list at newline characters (`Char.ofNat 10`). -/
def splitNewlines (acc : List Char) : List Char → List (List Char)
  | [] => [acc.reverse]
  | c :: rest =>
    if c = Char.ofNat 10 then acc.reverse :: splitNewlines [] rest
    else splitNewlines (c :: acc) rest

/-- The lines of a hook body. -/
def linesOf (text : String) : List String :=
  (splitNewlines [] text.data).map (fun cs => ⟨cs⟩)

/-- The shell statements of a hook body: its nonempty lines. -/
def hookStatements (text : String) : List String :=
  (linesOf text).filter (fun line => line != "")

/-! ### Bridging lemmas -/

/-- `check_element` holds exactly when some collection member has the same
comparison key (`caseNorm`) as the element. -/
theorem ResponseHandling.check_element_iff (rh : ResponseHandling) (e : String)
    (C : List String) :
    rh.check_element e C = true ↔
      ∃ c ∈ C, caseNorm rh.case_sensitive e = caseNorm rh.case_sensitive c := by
  cases h : rh.case_sensitive with
  | true => simp [ResponseHandling.check_element, caseNorm, h, List.elem_iff, eq_comm]
  | false =>
    simp [ResponseHandling.check_element, caseNorm, h, List.elem_iff, List.mem_map,
      eq_comm]

/-- One unfolding step of the gate loop on a consumed response. -/
theorem callLoop_cons (rh : ResponseHandling) (ma : Option Nat) (a : Nat)
    (r : String) (rest : List String) :
    ConfirmationPrompt.callLoop rh ma a (r :: rest) =
      if rh.is_valid r then
        ⟨if rh.is_affirmative r then .affirmed else .declined, 0⟩
      else if attempt_ok ma (a + 1) then
        ⟨(ConfirmationPrompt.callLoop rh ma (a + 1) rest).outcome,
          (ConfirmationPrompt.callLoop rh ma (a + 1) rest).warnings + 1⟩
      else
        ⟨.exhausted, 1⟩ := rfl

/-- With every response invalid, the gate with bound `m` exhausts exactly when
the incremented counter passes the bound, emitting one warning per invalid
response. -/
theorem callLoop_all_invalid_exhausted (rh : ResponseHandling) (m : Nat) :
    ∀ (rs : List String) (a : Nat), rs ≠ [] →
      (∀ r ∈ rs, rh.is_valid r = false) → a + rs.length = m + 1 →
      ConfirmationPrompt.callLoop rh (some m) a rs = ⟨.exhausted, rs.length⟩ := by
  intro rs
  induction rs with
  | nil => intro a h; exact absurd rfl h
  | cons r rest ih =>
    intro a _ hinv hlen
    have hr : rh.is_valid r = false := hinv r (List.mem_cons_self r rest)
    cases rest with
    | nil =>
      have hok : attempt_ok (some m) (a + 1) = false := by
        simp only [List.length_cons, List.length_nil] at hlen
        simp [attempt_ok]
        omega
      simp [ConfirmationPrompt.callLoop, hr, hok]
    | cons r2 rest2 =>
      have hok : attempt_ok (some m) (a + 1) = true := by
        simp only [List.length_cons] at hlen
        simp [attempt_ok]
        omega
      have hrec := ih (a + 1) (by simp)
        (fun x hx => hinv x (List.mem_cons_of_mem _ hx))
        (by simp only [List.length_cons] at hlen ⊢; omega)
      rw [callLoop_cons, if_neg (by simp [hr]), if_pos (by simp [hok]), hrec]
      simp

/-- With no attempt bound the loop never exhausts. -/
theorem callLoop_unbounded_never_exhausted (rh : ResponseHandling) :
    ∀ (rs : List String) (a : Nat),
      (ConfirmationPrompt.callLoop rh none a rs).outcome ≠ .exhausted := by
  intro rs
  induction rs with
  | nil => intro a; simp [ConfirmationPrompt.callLoop]
  | cons r rest ih =>
    intro a
    by_cases hv : rh.is_valid r = true
    · cases haf : rh.is_affirmative r <;>
        simp [ConfirmationPrompt.callLoop, hv, haf]
    · have hv' : rh.is_valid r = false := by simpa using hv
      simp only [ConfirmationPrompt.callLoop, hv', attempt_ok, Bool.false_eq_true,
        if_false, if_true]
      exact ih (a + 1)

/-- Exhaustion needs at least one response to have been consumed. -/
theorem callLoop_exhausted_ne_nil (rh : ResponseHandling) (ma : Option Nat) (a : Nat)
    (rs : List String)
    (h : (ConfirmationPrompt.callLoop rh ma a rs).outcome = .exhausted) : rs ≠ [] := by
  intro hnil
  subst hnil
  simp [ConfirmationPrompt.callLoop] at h

/-- After `rmtree fs p`, the path `p` itself is gone. -/
theorem rmtree_pathPresent_self (fs : Fs) (p : List String) :
    (rmtree fs p).pathPresent p = false := by
  simp only [rmtree, Fs.pathPresent, List.any_eq_false, List.mem_filter]
  rintro e ⟨_, hpre⟩
  intro hbeq
  rw [beq_iff_eq] at hbeq
  rw [hbeq] at hpre
  have hself : p.isPrefixOf p = true := List.isPrefixOf_iff_prefix.mpr (List.prefix_refl p)
  simp [hself] at hpre

/-- Every nonempty path is its own last ancestor. -/
theorem mem_pathAncestors_self (p : List String) (h : p ≠ []) : p ∈ pathAncestors p := by
  have hl : 0 < p.length := List.length_pos.mpr h
  simp only [pathAncestors, List.mem_map, List.mem_range]
  exact ⟨p.length - 1, by omega, by rw [Nat.sub_add_cancel hl, List.take_length]⟩

/-- `makedirs` leaves every ancestor of the created path present. -/
theorem makedirsAdd_present (fs : Fs) (p q : List String) (hq : q ∈ pathAncestors p) :
    (makedirsAdd fs p).pathPresent q = true := by
  by_cases hpres : fs.pathPresent q = true
  · simp only [Fs.pathPresent, List.any_eq_true] at hpres
    rcases hpres with ⟨e, he, hbeq⟩
    simp only [makedirsAdd, Fs.pathPresent, List.any_eq_true, List.mem_append]
    exact ⟨e, Or.inl he, hbeq⟩
  · have hpres' : fs.pathPresent q = false := by simpa using hpres
    simp only [makedirsAdd, Fs.pathPresent, List.any_eq_true, List.mem_append,
      List.mem_map, List.mem_filter]
    refine ⟨(q, FsEntry.dir), Or.inr ?_, ?_⟩
    · refine ⟨q, ⟨hq, ?_⟩, rfl⟩
      show (!(fs.pathPresent q)) = true
      simp [hpres']
    · exact beq_self_eq_true q

/-- Unfolding `mkexpdir` when the target path is absent. -/
theorem mkexpdir_fresh (fs : Fs) (root : List String) (name : String)
    (stream : List String) (h : fs.pathPresent (mkexpdirPath root name) = false) :
    mkexpdir fs root name stream =
      ⟨makedirsAdd fs (mkexpdirPath root name), some (mkexpdirPath root name),
        none, false⟩ := by
  simp [mkexpdir, makedirs, h]

/-- Unfolding `mkexpdir` when the target exists and the gate declines. -/
theorem mkexpdir_declined (fs : Fs) (root : List String) (name : String)
    (stream : List String) (h : fs.pathPresent (mkexpdirPath root name) = true)
    (hdecl : (confirm_overwrite stream).outcome = .declined) :
    mkexpdir fs root name stream = ⟨fs, none, none, true⟩ := by
  simp [mkexpdir, makedirs, h, hdecl]

/-- Unfolding `mkexpdir` when the target exists and the gate affirms: the
tree is removed and the directory recreated. -/
theorem mkexpdir_affirmed (fs : Fs) (root : List String) (name : String)
    (stream : List String) (h : fs.pathPresent (mkexpdirPath root name) = true)
    (haff : (confirm_overwrite stream).outcome = .affirmed) :
    mkexpdir fs root name stream =
      ⟨makedirsAdd (rmtree fs (mkexpdirPath root name)) (mkexpdirPath root name),
        some (mkexpdirPath root name), none, true⟩ := by
  have h2 : (rmtree fs (mkexpdirPath root name)).pathPresent
      (mkexpdirPath root name) = false := rmtree_pathPresent_self fs _
  simp [mkexpdir, makedirs, h, haff, h2]

/-- The number of trailing spaces of a string. -/
def trailingSpaces (s : String) : Nat :=
  (s.data.reverse.takeWhile (fun c => c == Char.ofNat 32)).length

/-! ### Claims -/

/-- Claim C2: for every bound `N ≥ 1`, `N` consecutive invalid responses
always exhaust the gate (never a default outcome), each invalid response
emitting one invalid-input warning; exhaustion is never signalled before at
least one attempt was made; with `max_attempts` unset the gate retries
indefinitely and never exhausts. -/
theorem C2_exhaustion_semantics (rh : ResponseHandling) (N : Nat) (hN : 1 ≤ N)
    (stream : List String) (hlen : stream.length = N)
    (hinv : ∀ r ∈ stream, rh.is_valid r = false) :
    (ConfirmationPrompt.callLoop rh (some N) 1 stream = ⟨.exhausted, N⟩)
    ∧ (∀ (ma : Option Nat) (a : Nat) (rs : List String),
        (ConfirmationPrompt.callLoop rh ma a rs).outcome = .exhausted → rs ≠ [])
    ∧ (∀ (a : Nat) (rs : List String),
        (ConfirmationPrompt.callLoop rh none a rs).outcome ≠ .exhausted) := by
  refine ⟨?_, ?_, ?_⟩
  · have hne : stream ≠ [] := by
      intro h
      subst h
      simp at hlen
      omega
    have := callLoop_all_invalid_exhausted rh N stream 1 hne hinv (by omega)
    rw [this, hlen]
  · intro ma a rs h
    exact callLoop_exhausted_ne_nil rh ma a rs h
  · intro a rs
    exact callLoop_unbounded_never_exhausted rh rs a

/-- Witness for C2 at the concrete gate of this program (yes/no lexicon,
bound 3, three invalid responses). -/
theorem C2_exhaustion_semantics_witness :
    ConfirmationPrompt.callLoop ⟨["yes"], ["no"], false⟩ (some 3) 1 ["a", "b", "c"]
      = ⟨.exhausted, 3⟩ :=
  (C2_exhaustion_semantics ⟨["yes"], ["no"], false⟩ 3 (by decide) ["a", "b", "c"]
    (by decide) (by decide)).1

/-- Claim C5 (counterexample): the claim says a rendered prompt always ends
in exactly one trailing space, but an input already ending in two spaces is
left unchanged by `Prompt.__init__` and renders with two. -/
theorem C5_counterexample : trailingSpaces (Prompt.initText "hi  ") ≠ 1 := by decide

/-- Claim C5 (amended): the rendered prompt always ends in at least one
space — one space is appended when missing, and a string already ending in
one or more spaces is left unchanged (so it may render with more than
one trailing space). -/
theorem C5_trailing_space (text : String) :
    endswith_space (Prompt.initText text) = true
    ∧ (endswith_space text = true → Prompt.initText text = text)
    ∧ (endswith_space text = false → Prompt.initText text = text ++ " ") := by
  refine ⟨?_, ?_, ?_⟩
  · by_cases h : endswith_space text = true
    · simp [Prompt.initText, h]
    · have h' : endswith_space text = false := by simpa using h
      simp only [Prompt.initText, h', Bool.false_eq_true, if_false]
      have hspace : (" " : String).data = [Char.ofNat 32] := by decide
      have hdata : (text ++ " ").data = text.data ++ [Char.ofNat 32] := by
        rw [String.data_append, hspace]
      rw [endswith_space, hdata, List.getLast?_concat]
      decide
  · intro h
    simp [Prompt.initText, h]
  · intro h
    simp [Prompt.initText, h]

/-- Witness for C5 (amended) at a prompt without a trailing space. -/
theorem C5_trailing_space_witness :
    endswith_space (Prompt.initText "hi") = true
    ∧ Prompt.initText "hi" = "hi" ++ " " :=
  ⟨(C5_trailing_space "hi").1, (C5_trailing_space "hi").2.2 (by decide)⟩

/-- Claim C6: with affirmative and negative token collections disjoint under
the configured comparison key, a response matching an affirmative token
yields `Affirmed` and one matching a negative token yields `Declined`; the
key is the lower-casing of both sides by default (`caseNorm false`) and the
identity when case-sensitive mode is set (`caseNorm true`). -/
theorem C6_lexicon_outcomes (aff neg : List String) (cs : Bool)
    (hdisj : ∀ a ∈ aff, ∀ b ∈ neg, caseNorm cs a ≠ caseNorm cs b)
    (ma : Option Nat) (att : Nat) (r : String) (rest : List String) :
    ((∃ a ∈ aff, caseNorm cs r = caseNorm cs a) →
      (ConfirmationPrompt.callLoop ⟨aff, neg, cs⟩ ma att (r :: rest)).outcome = .affirmed)
    ∧ ((∃ b ∈ neg, caseNorm cs r = caseNorm cs b) →
      (ConfirmationPrompt.callLoop ⟨aff, neg, cs⟩ ma att (r :: rest)).outcome = .declined) := by
  constructor
  · intro haff
    have ha : ResponseHandling.is_affirmative ⟨aff, neg, cs⟩ r = true :=
      (ResponseHandling.check_element_iff _ r aff).mpr haff
    have hv : ResponseHandling.is_valid ⟨aff, neg, cs⟩ r = true := by
      apply (ResponseHandling.check_element_iff _ r _).mpr
      obtain ⟨a, hmem, heq⟩ := haff
      exact ⟨a, List.mem_append_left _ hmem, heq⟩
    rw [callLoop_cons, if_pos hv]
    simp [ha]
  · intro hneg
    have hv : ResponseHandling.is_valid ⟨aff, neg, cs⟩ r = true := by
      apply (ResponseHandling.check_element_iff _ r _).mpr
      obtain ⟨b, hmem, heq⟩ := hneg
      exact ⟨b, List.mem_append_right _ hmem, heq⟩
    have hna : ResponseHandling.is_affirmative ⟨aff, neg, cs⟩ r = false := by
      by_contra hc
      have hc' : ResponseHandling.is_affirmative ⟨aff, neg, cs⟩ r = true := by
        simpa using hc
      obtain ⟨a, hmema, heqa⟩ := (ResponseHandling.check_element_iff _ r aff).mp hc'
      obtain ⟨b, hmemb, heqb⟩ := hneg
      exact hdisj a hmema b hmemb (heqa ▸ heqb ▸ rfl)
    rw [callLoop_cons, if_pos hv]
    simp [hna]

/-- Witness for C6 at the default lexicon: `"YES"` affirms, `"No"` declines,
case-insensitively. -/
theorem C6_lexicon_outcomes_witness :
    (ConfirmationPrompt.callLoop ⟨["y", "yes"], ["n", "no"], false⟩ (some 3) 1
      ["YES"]).outcome = .affirmed
    ∧ (ConfirmationPrompt.callLoop ⟨["y", "yes"], ["n", "no"], false⟩ (some 3) 1
      ["No"]).outcome = .declined :=
  ⟨(C6_lexicon_outcomes ["y", "yes"] ["n", "no"] false (by decide) (some 3) 1
      "YES" []).1 (by decide),
   (C6_lexicon_outcomes ["y", "yes"] ["n", "no"] false (by decide) (some 3) 1
      "No" []).2 (by decide)⟩

/-- Claim C10: a response that is (under the configured case rule) in both
collections makes the gate return `Affirmed` — affirmative membership is
tested first once the response is valid — and construction stores the
collections verbatim, with no disjointness check. -/
theorem C10_overlap_affirmed (p : String) (ma : Option Nat) (aff neg : List String)
    (cs : Bool) (att : Nat) (r : String) (rest : List String)
    (haff : ResponseHandling.is_affirmative ⟨aff, neg, cs⟩ r = true)
    (_hneg : ResponseHandling.is_negative ⟨aff, neg, cs⟩ r = true) :
    (ConfirmationPrompt.init p ma aff neg cs).responses = ⟨aff, neg, cs⟩
    ∧ (ConfirmationPrompt.callLoop ⟨aff, neg, cs⟩ ma att (r :: rest)).outcome
        = .affirmed := by
  refine ⟨rfl, ?_⟩
  have hv : ResponseHandling.is_valid ⟨aff, neg, cs⟩ r = true := by
    apply (ResponseHandling.check_element_iff _ _ _).mpr
    obtain ⟨a, hmem, heq⟩ := (ResponseHandling.check_element_iff _ _ _).mp haff
    exact ⟨a, List.mem_append_left _ hmem, heq⟩
  rw [callLoop_cons, if_pos hv]
  simp [haff]

/-- Witness for C10 at an overlapping lexicon. -/
theorem C10_overlap_affirmed_witness :
    (ConfirmationPrompt.init "q" (some 3) ["ok"] ["ok"] false).responses
      = ⟨["ok"], ["ok"], false⟩
    ∧ (ConfirmationPrompt.callLoop ⟨["ok"], ["ok"], false⟩ (some 3) 1 ["OK"]).outcome
        = .affirmed :=
  C10_overlap_affirmed "q" (some 3) ["ok"] ["ok"] false 1 "OK" [] (by decide) (by decide)

/-- Claim C4 (counterexample): with a discovered root whose basename is
already `experiments`, create resolves `root/name` while delete resolves
`root/experiments/name` — the claim that both target the identical path in
that case is false. -/
theorem C4_counterexample :
    mkexpdirPath ["home", "experiments"] "a"
      ≠ deleteExpdirPath ["home", "experiments"] "a" := by decide

/-- Claim C4 (amended): delete always resolves `root/experiments/name`; this
coincides with the path create resolves exactly when the root's basename is
not `experiments`; when the basename is already `experiments`, create
targets `root/name` instead. -/
theorem C4_delete_path (root : List String) (name : String) :
    deleteExpdirPath root name = root ++ ["experiments", name]
    ∧ (os_basename root ≠ "experiments" →
        mkexpdirPath root name = deleteExpdirPath root name)
    ∧ (os_basename root = "experiments" →
        mkexpdirPath root name = root ++ [name]) := by
  refine ⟨rfl, ?_, ?_⟩
  · intro h
    simp [mkexpdirPath, deleteExpdirPath, h]
  · intro h
    simp [mkexpdirPath, h]

/-- Witness for C4 (amended) at a root not named `experiments`. -/
theorem C4_delete_path_witness :
    deleteExpdirPath ["home"] "a" = ["home", "experiments", "a"]
    ∧ mkexpdirPath ["home"] "a" = deleteExpdirPath ["home"] "a" :=
  ⟨(C4_delete_path ["home"] "a").1, (C4_delete_path ["home"] "a").2.1 (by decide)⟩

/-- Claim C7: create resolves `root/experiments/name` (or `root/name` when
the root's basename is already `experiments`); when the target does not yet
exist, it creates the directory together with every missing ancestor
(including the parent `experiments` segment), returns the path, and never
renders a confirmation prompt. -/
theorem C7_create_fresh (fs : Fs) (root : List String) (name : String)
    (stream : List String)
    (h : fs.pathPresent (mkexpdirPath root name) = false) :
    mkexpdir fs root name stream =
      ⟨makedirsAdd fs (mkexpdirPath root name), some (mkexpdirPath root name),
        none, false⟩
    ∧ (∀ q ∈ pathAncestors (mkexpdirPath root name),
        (makedirsAdd fs (mkexpdirPath root name)).pathPresent q = true)
    ∧ (makedirsAdd fs (mkexpdirPath root name)).pathPresent (mkexpdirPath root name)
        = true
    ∧ mkexpdirPath root name =
        (if os_basename root = "experiments" then root ++ [name]
         else root ++ ["experiments", name]) := by
  have hne : mkexpdirPath root name ≠ [] := by
    simp only [mkexpdirPath]
    intro hcontra
    exact List.append_ne_nil_of_right_ne_nil _ (by simp) hcontra
  refine ⟨mkexpdir_fresh fs root name stream h, ?_, ?_, ?_⟩
  · intro q hq
    exact makedirsAdd_present fs _ q hq
  · exact makedirsAdd_present fs _ _ (mem_pathAncestors_self _ hne)
  · by_cases hb : os_basename root = "experiments"
    · simp [mkexpdirPath, hb]
    · simp [mkexpdirPath, hb]

/-- Witness for C7 on an empty filesystem. -/
theorem C7_create_fresh_witness :
    mkexpdir ⟨[]⟩ ["dl"] "exp" [] =
      ⟨makedirsAdd ⟨[]⟩ (mkexpdirPath ["dl"] "exp"), some (mkexpdirPath ["dl"] "exp"),
        none, false⟩ :=
  (C7_create_fresh ⟨[]⟩ ["dl"] "exp" [] (by decide)).1

/-- Claim C8: when the target directory already exists, Declining the
overwrite gate returns the `None` sentinel with the filesystem — including
every file's bytes — literally unchanged; Affirming removes the tree and
recreates the directory; and any outcome other than Affirmed leaves the
filesystem unchanged. -/
theorem C8_existing_gate (fs : Fs) (root : List String) (name : String)
    (stream : List String)
    (hex : fs.pathPresent (mkexpdirPath root name) = true) :
    ((confirm_overwrite stream).outcome = .declined →
      mkexpdir fs root name stream = ⟨fs, none, none, true⟩)
    ∧ ((confirm_overwrite stream).outcome = .affirmed →
      mkexpdir fs root name stream =
        ⟨makedirsAdd (rmtree fs (mkexpdirPath root name)) (mkexpdirPath root name),
          some (mkexpdirPath root name), none, true⟩)
    ∧ ((confirm_overwrite stream).outcome ≠ .affirmed →
      (mkexpdir fs root name stream).fs = fs) := by
  refine ⟨fun hd => mkexpdir_declined fs root name stream hex hd,
    fun ha => mkexpdir_affirmed fs root name stream hex ha, ?_⟩
  intro hna
  cases ho : (confirm_overwrite stream).outcome with
  | affirmed => exact absurd ho hna
  | declined => simp [mkexpdir, makedirs, hex, ho]
  | exhausted => simp [mkexpdir, makedirs, hex, ho]
  | pending => simp [mkexpdir, makedirs, hex, ho]

/-- Witness for C8: declining leaves a workspace with one data file
untouched. -/
theorem C8_existing_gate_witness :
    mkexpdir ⟨[(["dl", "experiments", "exp"], FsEntry.dir),
               (["dl", "experiments", "exp", "data"], FsEntry.file [1, 2, 3])]⟩
      ["dl"] "exp" ["no"] =
      ⟨⟨[(["dl", "experiments", "exp"], FsEntry.dir),
         (["dl", "experiments", "exp", "data"], FsEntry.file [1, 2, 3])]⟩,
        none, none, true⟩ :=
  (C8_existing_gate _ ["dl"] "exp" ["no"] (by decide)).1 (by decide)

/-- Claim C9: deleting a workspace whose directory does not exist fails with
the `WorkspaceNotFound` failure (`FileNotFoundError`) before any prompt is
rendered, with no directory removal and no environment removal. -/
theorem C9_delete_missing (fs : Fs) (dl_home : List String) (name : String)
    (stream : List String)
    (h : fs.isDirAt (deleteExpdirPath dl_home name) = false) :
    delete_experiment fs dl_home name stream =
      ⟨fs, some .fileNotFound, false, false⟩ := by
  simp [delete_experiment, h]

/-- Witness for C9 on an empty filesystem. -/
theorem C9_delete_missing_witness :
    delete_experiment ⟨[]⟩ ["dl"] "exp" ["yes"] =
      ⟨⟨[]⟩, some .fileNotFound, false, false⟩ :=
  C9_delete_missing ⟨[]⟩ ["dl"] "exp" ["yes"] (by decide)

/-- Claim C1 (counterexample): Declining the overwrite confirmation does NOT
leave the process with exit status 0 — the abort decorator calls
`sys.exit(1)`. -/
theorem C1_counterexample :
    (createExperimentMain ⟨[(["dl", "experiments", "exp"], FsEntry.dir)]⟩
      ["dl"] "exp" ["no"]).exitCode ≠ 0 := by decide

/-- Claim C1 (amended): when the user Declines the overwrite confirmation
(directory creation returns the `None` sentinel), the `add_abort_condition`
wrapper terminates the process via `sys.exit(1)` — exit status 1, non-zero —
skipping environment creation and hook generation, and leaving the
filesystem unchanged. -/
theorem C1_declined_abort (fs : Fs) (dl_home : List String) (name : String)
    (stream : List String)
    (hex : fs.pathPresent (mkexpdirPath dl_home name) = true)
    (hdecl : (confirm_overwrite stream).outcome = .declined) :
    createExperimentMain fs dl_home name stream = ⟨fs, 1, false, false, true⟩ := by
  have hm := mkexpdir_declined fs dl_home name stream hex hdecl
  simp [createExperimentMain, hm]

/-- Witness for C1 (amended) at a concrete declined run. -/
theorem C1_declined_abort_witness :
    createExperimentMain ⟨[(["dl", "experiments", "x"], FsEntry.dir)]⟩
      ["dl"] "x" ["no"] =
      ⟨⟨[(["dl", "experiments", "x"], FsEntry.dir)]⟩, 1, false, false, true⟩ :=
  C1_declined_abort _ ["dl"] "x" ["no"] (by decide) (by decide)

/-- Whether a statement line starts with the given text (over character
lists, so it evaluates by kernel reduction). -/
def lineStartsWith (pre s : String) : Bool :=
  pre.data.isPrefixOf s.data

/-- Claim C3 (code evaluated at a concrete root `/dl`): the enter-committed
hook does NOT export the two discovery variables as separate statements —
no statement starts with `export DOWNWARD_REPO=`, and the single statement
involving `DOWNWARD_BENCHMARKS` is the fused line produced by the missing
list comma (Python adjacent-string concatenation), which assigns
`DOWNWARD_BENCHMARKS` a value ending in `export`.  The restore side that the
claim describes does hold: exit-begin has exactly one restore/unset for each
of `PROJECT_HOME`, `PATH`, `DOWNWARD_BENCHMARKS`, `DOWNWARD_REPO`, and
exit-committed exactly one restore of `PYTHONPATH`. -/
theorem C3_fused_downward_exports :
    ((hookStatements (postactivate_text "/dl")).filter
        (fun s => lineStartsWith "export DOWNWARD_REPO=" s)).length = 0
    ∧ ((hookStatements (postactivate_text "/dl")).filter
        (fun s => lineStartsWith "export DOWNWARD_BENCHMARKS=" s)) =
      ["export DOWNWARD_BENCHMARKS=${PROJECT_HOME}/benchmarksexport DOWNWARD_REPO=${PROJECT_HOME}/fast-downward"]
    ∧ ((hookStatements predeactivate_text).filter
        (fun s => s == "export PROJECT_HOME=${_BASEENV_PROJECT_HOME}")).length = 1
    ∧ ((hookStatements predeactivate_text).filter
        (fun s => s == "export PATH=$_BASEENV_PATH")).length = 1
    ∧ ((hookStatements predeactivate_text).filter
        (fun s => s == "unset DOWNWARD_BENCHMARKS")).length = 1
    ∧ ((hookStatements predeactivate_text).filter
        (fun s => s == "unset DOWNWARD_REPO")).length = 1
    ∧ ((hookStatements postdeactivate_text).filter
        (fun s => lineStartsWith "export PYTHONPATH=" s)).length = 1 := by
  refine ⟨by decide, by decide, by decide, by decide, by decide, by decide, by decide⟩
